import Mathlib

/-!
Verification of the Linux method-channel dispatcher of the `alouette_lib_tts`
Flutter plugin (`src/alouette_lib_tts/linux/alouette_lib_tts_plugin.cc`).

The dispatcher `alouette_lib_tts_plugin_handle_method_call` reads the method
name of an incoming call and answers with a Flutter method response.  It
observes the operating system in two ways only:
* `system("which edge-tts > /dev/null 2>&1")`, whose integer exit status it
  compares against 0 (the C `system` call returns -1 when the spawn fails);
* `uname(2)` on a zero-initialized `struct utsname`, whose return value it
  ignores, reading only the `release` field afterwards.

We embed these observations as an explicit environment record and the
dispatcher as a pure function of the environment, the method name and the
(unused) argument payload.
-/

set_option linter.unusedVariables false

namespace AlouetteTTS

/-- A Flutter platform-channel value: the fragment of `FlValue` the plugin
builds (`fl_value_new_bool`, `fl_value_new_string`, `fl_value_new_list`) or
could receive as an argument payload. -/
inductive FlValue where
  | bool (b : Bool)
  | string (s : String)
  | list (xs : List FlValue)

/-- A Flutter method response: a success payload
(`fl_method_success_response_new`), an error payload
(`fl_method_error_response_new`, which the plugin never constructs), or the
"not implemented" indicator (`fl_method_not_implemented_response_new`). -/
inductive FlMethodResponse where
  | success (v : FlValue)
  | error (code message : String)
  | notImplemented

/-- The two fields of `struct utsname` relevant to the plugin.  The struct is
zero-initialized (`= {}`) before `uname` is called, so both fields start as
the empty string. -/
structure Utsname where
  sysname : String
  release : String

/-- The zero-initialized `struct utsname`. -/
def Utsname.zero : Utsname := ⟨"", ""⟩

/-- Everything the dispatcher observes about the operating system:
`whichEdgeTTS` is the exit status of `system("which edge-tts > /dev/null 2>&1")`
(0 when the tool is on the search path, nonzero when absent, -1 when the spawn
itself fails), and `unameResult` is `some u` when `uname(2)` succeeds and
fills the struct with `u`, `none` when the call fails and the zero-initialized
struct is left untouched. -/
structure OSEnv where
  whichEdgeTTS : Int
  unameResult : Option Utsname

/-- The `struct utsname` contents after `uname(&uname_data)` returns, its
return value ignored: the reported fields on success, the zero-initialized
struct on failure. -/
def OSEnv.unameData (env : OSEnv) : Utsname :=
  env.unameResult.getD Utsname.zero

/-- Embedding of `alouette_lib_tts_plugin_handle_method_call`: the `strcmp`
chain on the method name, with each branch building the response the C code
builds.  The argument payload of the call is never read by the C code, which
the unused `args` parameter mirrors. -/
def handle_method_call (env : OSEnv) (method : String) (args : FlValue) :
    FlMethodResponse :=
  if method = "isEdgeTTSAvailable" then
    FlMethodResponse.success (FlValue.bool (env.whichEdgeTTS == 0))
  else if method = "getAvailableTTSEngines" then
    let result : List FlValue :=
      if env.whichEdgeTTS == 0 then [FlValue.string "edge-tts"] else []
    FlMethodResponse.success (FlValue.list result)
  else if method = "getPlatformVersion" then
    FlMethodResponse.success
      (FlValue.string ("Linux " ++ (OSEnv.unameData env).release))
  else
    FlMethodResponse.notImplemented

/-- An incoming method call: a name and an argument payload. -/
structure MethodCall where
  method : String
  args : FlValue

/-- A sequence of calls handled one after the other.  The plugin instance
(`struct _AlouetteLibTtsPlugin`) holds no fields beyond its GObject parent,
so each call is answered from the environment alone. -/
def handleCalls (env : OSEnv) (calls : List MethodCall) : List FlMethodResponse :=
  calls.map fun c => handle_method_call env c.method c.args

end AlouetteTTS

namespace AlouetteTTS

/-- C1: a call named `isEdgeTTSAvailable` gets a success response whose
payload is the boolean `true` when the `which edge-tts` probe exits with
status 0, and `false` otherwise. -/
theorem isEdgeTTSAvailable_reports_probe (env : OSEnv) (args : FlValue) :
    (env.whichEdgeTTS = 0 →
      handle_method_call env "isEdgeTTSAvailable" args =
        FlMethodResponse.success (FlValue.bool true)) ∧
    (env.whichEdgeTTS ≠ 0 →
      handle_method_call env "isEdgeTTSAvailable" args =
        FlMethodResponse.success (FlValue.bool false)) := by
  constructor
  · intro h
    simp [handle_method_call, h]
  · intro h
    simp [handle_method_call, h]

/-- Witness for C1: with probe status 0 the payload is `true`, with probe
status 1 it is `false`. -/
theorem isEdgeTTSAvailable_reports_probe_witness :
    handle_method_call ⟨0, none⟩ "isEdgeTTSAvailable" (FlValue.bool true) =
      FlMethodResponse.success (FlValue.bool true) ∧
    handle_method_call ⟨1, none⟩ "isEdgeTTSAvailable" (FlValue.bool true) =
      FlMethodResponse.success (FlValue.bool false) :=
  ⟨(isEdgeTTSAvailable_reports_probe ⟨0, none⟩ (FlValue.bool true)).1 rfl,
   (isEdgeTTSAvailable_reports_probe ⟨1, none⟩ (FlValue.bool true)).2 (by decide)⟩

/-- C2: a call named `getAvailableTTSEngines` gets a success response whose
payload is the one-element list `["edge-tts"]` when the probe exits with
status 0, and the empty list otherwise; these two cases are exhaustive. -/
theorem getAvailableTTSEngines_matches_probe (env : OSEnv) (args : FlValue) :
    (env.whichEdgeTTS = 0 →
      handle_method_call env "getAvailableTTSEngines" args =
        FlMethodResponse.success (FlValue.list [FlValue.string "edge-tts"])) ∧
    (env.whichEdgeTTS ≠ 0 →
      handle_method_call env "getAvailableTTSEngines" args =
        FlMethodResponse.success (FlValue.list [])) := by
  constructor
  · intro h
    simp [handle_method_call, h]
  · intro h
    simp [handle_method_call, h]

/-- Witness for C2: with probe status 0 the payload is `["edge-tts"]`, with
probe status 127 it is `[]`. -/
theorem getAvailableTTSEngines_matches_probe_witness :
    handle_method_call ⟨0, none⟩ "getAvailableTTSEngines" (FlValue.bool true) =
      FlMethodResponse.success (FlValue.list [FlValue.string "edge-tts"]) ∧
    handle_method_call ⟨127, none⟩ "getAvailableTTSEngines" (FlValue.bool true) =
      FlMethodResponse.success (FlValue.list []) :=
  ⟨(getAvailableTTSEngines_matches_probe ⟨0, none⟩ (FlValue.bool true)).1 rfl,
   (getAvailableTTSEngines_matches_probe ⟨127, none⟩ (FlValue.bool true)).2 (by decide)⟩

/-- C3 counterexample: the claim says the payload is
`"<kernel-name> <release>"` with the kernel name taken from the OS query,
but the code prints the fixed literal `"Linux"` (`g_strdup_printf("Linux %s", ...)`)
and never reads `uname_data.sysname`.  In an environment where `uname`
reports sysname `"FreeBSD"` and release `"14.1"`, the response is
`"Linux 14.1"`, not `"FreeBSD 14.1"`. -/
theorem getPlatformVersion_ignores_sysname :
    handle_method_call ⟨0, some ⟨"FreeBSD", "14.1"⟩⟩ "getPlatformVersion"
        (FlValue.bool true) ≠
      FlMethodResponse.success (FlValue.string ("FreeBSD" ++ " " ++ "14.1")) := by
  intro h
  simp [handle_method_call, OSEnv.unameData] at h

/-- C3 amended: when the OS query succeeds and reports release `u.release`,
the response to `getPlatformVersion` is a success whose payload is the fixed
label `"Linux"`, a space, and the reported release identifier verbatim. -/
theorem getPlatformVersion_fixed_label (env : OSEnv) (args : FlValue)
    (u : Utsname) (h : env.unameResult = some u) :
    handle_method_call env "getPlatformVersion" args =
      FlMethodResponse.success (FlValue.string ("Linux " ++ u.release)) := by
  simp [handle_method_call, OSEnv.unameData, h]

/-- Witness for the amended C3: with a successful query reporting release
`"6.8.0-45-generic"`, the payload is `"Linux 6.8.0-45-generic"`. -/
theorem getPlatformVersion_fixed_label_witness :
    handle_method_call ⟨0, some ⟨"Linux", "6.8.0-45-generic"⟩⟩
        "getPlatformVersion" (FlValue.bool true) =
      FlMethodResponse.success
        (FlValue.string ("Linux " ++ "6.8.0-45-generic")) :=
  getPlatformVersion_fixed_label ⟨0, some ⟨"Linux", "6.8.0-45-generic"⟩⟩
    (FlValue.bool true) ⟨"Linux", "6.8.0-45-generic"⟩ rfl

/-- C4: a call whose name is none of the three recognized ones gets the
"not implemented" response: never an error payload and never a success
payload. -/
theorem unrecognized_method_not_implemented (env : OSEnv) (args : FlValue)
    (m : String) (h₁ : m ≠ "isEdgeTTSAvailable")
    (h₂ : m ≠ "getAvailableTTSEngines") (h₃ : m ≠ "getPlatformVersion") :
    handle_method_call env m args = FlMethodResponse.notImplemented := by
  simp [handle_method_call, h₁, h₂, h₃]

/-- Witness for C4: the call name `"bogus"` gets the "not implemented"
response. -/
theorem unrecognized_method_not_implemented_witness :
    handle_method_call ⟨0, none⟩ "bogus" (FlValue.bool true) =
      FlMethodResponse.notImplemented :=
  unrecognized_method_not_implemented ⟨0, none⟩ (FlValue.bool true) "bogus"
    (by decide) (by decide) (by decide)

/-- C5: whatever the probe outcome — exit status 0, any nonzero status, or
-1 from a spawn failure — both `isEdgeTTSAvailable` and
`getAvailableTTSEngines` answer with an ordinary success response (a boolean
and a list respectively), and every non-zero outcome yields `false` and the
empty list; no probe outcome produces an error response. -/
theorem probe_outcomes_never_error (env : OSEnv) (args : FlValue) :
    (∃ b, handle_method_call env "isEdgeTTSAvailable" args =
      FlMethodResponse.success (FlValue.bool b)) ∧
    (∃ xs, handle_method_call env "getAvailableTTSEngines" args =
      FlMethodResponse.success (FlValue.list xs)) ∧
    (env.whichEdgeTTS ≠ 0 →
      handle_method_call env "isEdgeTTSAvailable" args =
        FlMethodResponse.success (FlValue.bool false) ∧
      handle_method_call env "getAvailableTTSEngines" args =
        FlMethodResponse.success (FlValue.list [])) := by
  refine ⟨⟨env.whichEdgeTTS == 0, by simp [handle_method_call]⟩, ?_, ?_⟩
  · by_cases h : env.whichEdgeTTS = 0
    · exact ⟨[FlValue.string "edge-tts"], by simp [handle_method_call, h]⟩
    · exact ⟨[], by simp [handle_method_call, h]⟩
  · intro h
    exact ⟨by simp [handle_method_call, h], by simp [handle_method_call, h]⟩

/-- Witness for C5: with a spawn-failure status of -1, both methods still
answer with success payloads `false` and `[]`. -/
theorem probe_outcomes_never_error_witness :
    handle_method_call ⟨-1, none⟩ "isEdgeTTSAvailable" (FlValue.bool true) =
      FlMethodResponse.success (FlValue.bool false) ∧
    handle_method_call ⟨-1, none⟩ "getAvailableTTSEngines" (FlValue.bool true) =
      FlMethodResponse.success (FlValue.list []) :=
  (probe_outcomes_never_error ⟨-1, none⟩ (FlValue.bool true)).2.2 (by decide)

/-- C6: under one fixed environment, `getAvailableTTSEngines` answers with
some list `xs`, and `xs` is non-empty exactly when `isEdgeTTSAvailable`
answers `true`. -/
theorem engines_nonempty_iff_available (env : OSEnv) (a₁ a₂ : FlValue) :
    ∃ xs, handle_method_call env "getAvailableTTSEngines" a₁ =
        FlMethodResponse.success (FlValue.list xs) ∧
      (xs ≠ [] ↔ handle_method_call env "isEdgeTTSAvailable" a₂ =
        FlMethodResponse.success (FlValue.bool true)) := by
  by_cases h : env.whichEdgeTTS = 0
  · exact ⟨[FlValue.string "edge-tts"], by simp [handle_method_call, h]⟩
  · exact ⟨[], by simp [handle_method_call, h]⟩

/-- Witness for C6: in an environment with a present tool, the list is
`["edge-tts"]`, it is non-empty, and `isEdgeTTSAvailable` answers `true`. -/
theorem engines_nonempty_iff_available_witness :
    handle_method_call ⟨0, none⟩ "isEdgeTTSAvailable" (FlValue.bool false) =
      FlMethodResponse.success (FlValue.bool true) := by
  obtain ⟨xs, hxs, hiff⟩ :=
    engines_nonempty_iff_available ⟨0, none⟩ (FlValue.bool true) (FlValue.bool false)
  have hx : xs = [FlValue.string "edge-tts"] := by
    have : handle_method_call ⟨0, none⟩ "getAvailableTTSEngines"
        (FlValue.bool true) =
      FlMethodResponse.success (FlValue.list [FlValue.string "edge-tts"]) := by
      simp [handle_method_call]
    rw [this] at hxs
    exact (FlValue.list.inj (FlMethodResponse.success.inj hxs.symm))
  exact hiff.mp (by simp [hx])

/-- C7: the plugin keeps no mutable state, so in a fixed environment each
call in a sequence is answered exactly as it would be alone, whatever the
other calls and their order. -/
theorem calls_independent (env : OSEnv) (calls : List MethodCall) (i : Nat)
    (h : i < calls.length) :
    (handleCalls env calls)[i]? =
      some (handle_method_call env (calls.get ⟨i, h⟩).method
        (calls.get ⟨i, h⟩).args) := by
  simp [handleCalls, List.getElem?_eq_getElem, h]

/-- Witness for C7: in a two-call sequence, the second call's response equals
the response to handling it alone. -/
theorem calls_independent_witness :
    (handleCalls ⟨0, none⟩
        [⟨"getAvailableTTSEngines", FlValue.bool true⟩,
         ⟨"isEdgeTTSAvailable", FlValue.bool true⟩])[1]? =
      some (handle_method_call ⟨0, none⟩ "isEdgeTTSAvailable"
        (FlValue.bool true)) :=
  calls_independent ⟨0, none⟩
    [⟨"getAvailableTTSEngines", FlValue.bool true⟩,
     ⟨"isEdgeTTSAvailable", FlValue.bool true⟩] 1 (by decide)

/-- C8: the success payload type matches the method name: a boolean for
`isEdgeTTSAvailable`, a list whose elements are all strings for
`getAvailableTTSEngines`, and a string for `getPlatformVersion`. -/
theorem payload_types_match (env : OSEnv) (args : FlValue) :
    (∃ b, handle_method_call env "isEdgeTTSAvailable" args =
      FlMethodResponse.success (FlValue.bool b)) ∧
    (∃ xs, handle_method_call env "getAvailableTTSEngines" args =
        FlMethodResponse.success (FlValue.list xs) ∧
      ∀ v ∈ xs, ∃ s, v = FlValue.string s) ∧
    (∃ s, handle_method_call env "getPlatformVersion" args =
      FlMethodResponse.success (FlValue.string s)) := by
  refine ⟨⟨env.whichEdgeTTS == 0, by simp [handle_method_call]⟩, ?_,
    ⟨"Linux " ++ (OSEnv.unameData env).release, by simp [handle_method_call]⟩⟩
  by_cases h : env.whichEdgeTTS = 0
  · exact ⟨[FlValue.string "edge-tts"], by simp [handle_method_call, h],
      by simp⟩
  · exact ⟨[], by simp [handle_method_call, h], by simp⟩

/-- Witness for C8: in a concrete environment the three payloads are a
boolean, a list of strings, and a string. -/
theorem payload_types_match_witness :
    (∃ b, handle_method_call ⟨0, some ⟨"Linux", "6.1"⟩⟩ "isEdgeTTSAvailable"
        (FlValue.bool true) =
      FlMethodResponse.success (FlValue.bool b)) ∧
    (∃ xs, handle_method_call ⟨0, some ⟨"Linux", "6.1"⟩⟩
        "getAvailableTTSEngines" (FlValue.bool true) =
        FlMethodResponse.success (FlValue.list xs) ∧
      ∀ v ∈ xs, ∃ s, v = FlValue.string s) ∧
    (∃ s, handle_method_call ⟨0, some ⟨"Linux", "6.1"⟩⟩ "getPlatformVersion"
        (FlValue.bool true) =
      FlMethodResponse.success (FlValue.string s)) :=
  payload_types_match ⟨0, some ⟨"Linux", "6.1"⟩⟩ (FlValue.bool true)

/-- C9: the response is a function of the method name and the OS environment
only — two calls with the same name but different argument payloads get equal
responses — and handling a sequence of calls produces exactly one response
per call. -/
theorem response_ignores_args (env : OSEnv) (m : String) (a₁ a₂ : FlValue) :
    handle_method_call env m a₁ = handle_method_call env m a₂ ∧
    ∀ calls : List MethodCall, (handleCalls env calls).length = calls.length :=
  ⟨rfl, fun calls => by simp [handleCalls]⟩

/-- C10: when the `uname` call fails, its ignored return value leaves the
zero-initialized struct in place, so `getPlatformVersion` still answers with
a success response whose payload is the fixed label `"Linux"` followed by a
space and the empty release. -/
theorem uname_failure_still_succeeds (env : OSEnv) (args : FlValue)
    (h : env.unameResult = none) :
    handle_method_call env "getPlatformVersion" args =
      FlMethodResponse.success (FlValue.string "Linux ") := by
  simp [handle_method_call, OSEnv.unameData, h, Utsname.zero]

/-- Witness for C10: with a failed query the payload is the string
`"Linux "`. -/
theorem uname_failure_still_succeeds_witness :
    handle_method_call ⟨0, none⟩ "getPlatformVersion" (FlValue.bool true) =
      FlMethodResponse.success (FlValue.string "Linux ") :=
  uname_failure_still_succeeds ⟨0, none⟩ (FlValue.bool true) rfl

end AlouetteTTS
